import Mathlib

/-!
Shallow embedding of the risk-policy evaluation engine of `src/bot.js`
(per-trade risk management bot).  The JavaScript functions
`getMidnightTonight`, `isSymbolBlocked`, `isAccountBlocked` and the main
`monitorAccount` routine (together with the scheduler loop of
`startMonitoring`) are translated into pure Lean functions:

* numbers carried by positions and balances become rationals,
* timestamps become natural numbers (milliseconds),
* the Mongo document mutations of `accountDoc` become explicit state
  passing of an `AccountDoc` value,
* network / database side effects (alerts, closes, trade-history writes,
  metric writes) become an ordered `List Action`, exactly in the order
  the corresponding `await` calls occur in the source,
* the ambient wall clock (`new Date()`) and `getMidnightTonight()` are
  threaded as explicit `now` / `midnight` inputs.

JavaScript truthiness of numeric fields (`x || 0` patterns, `parseFloat`
of possibly-absent fields) is modelled by `jsNum` on `Option` values.
-/

namespace Bot

/-- Severity levels used by `saveAlert` in the source. -/
inductive Level where
  | info
  | warning
  | critical
deriving DecidableEq, Repr

/-- The closed set of close reasons written to trade history. -/
inductive Reason where
  | MAX_DRAWDOWN
  | MAX_TRADES_EXCEEDED
  | LEVERAGE_EXCEEDED
  | DAILY_LIMIT_REACHED
  | SYMBOL_BLOCKED
deriving DecidableEq, Repr

/-- Engine output: one entry per observable side effect of
`monitorAccount`, in source order.  `closeAll` models
`closeAllPositions`; `blockSymbolUntil` / `blockAccountUntil` model the
writes of `blockedSymbols` / `blockedUntil`; `recordTrade` models
`saveTradeHistory`; `recordMetrics` models `saveMetrics`. -/
inductive Action where
  | alert (level : Level)
  | closeOne (symbol side : String) (reason : Reason)
  | closeAll (reason : Reason)
  | blockSymbolUntil (symbol : String) (until_ : Nat)
  | blockAccountUntil (until_ : Nat)
  | recordTrade (symbol side : String) (pnlPercent : ℚ) (reason : Reason)
      (leverage size : ℚ)
  | recordMetrics
deriving DecidableEq, Repr

/-- `riskParams` of the Account schema.  `maxOpenTrades` is a count
(compared against `positions.length`), the other three are percentages /
multipliers. -/
structure RiskParams where
  dailyDrawdownLimit : ℚ
  maxDrawdownLimit : ℚ
  maxLeverage : ℚ
  maxOpenTrades : Nat
deriving DecidableEq, Repr

/-- One open position as returned by `getOpenPositions`.  Fields that
the source reads through `parseFloat(x || 0)` or `x || fallback` are
`Option`s (absent = `none`); `timestamp` / `datetime` are the two open
time fields of the ccxt position object, `infoMarkPrice` is
`position.info?.markPrice`. -/
structure Position where
  symbol : String
  side : String
  leverage : Option ℚ
  entryPrice : Option ℚ
  markPrice : Option ℚ
  infoMarkPrice : Option ℚ
  percentage : Option ℚ
  contracts : ℚ
  timestamp : Option Nat
  datetime : Option Nat
deriving DecidableEq, Repr

/-- The per-account persistent document (the fields of the Account
schema that the evaluator reads or writes).  `blockedSymbols` is the
symbol-to-unblock-time map, kept as an association list with unique
keys. -/
structure AccountDoc where
  riskParams : RiskParams
  isActive : Bool
  blockedSymbols : List (String × Nat)
  blockedUntil : Option Nat
deriving DecidableEq, Repr

/-- JavaScript `parseFloat(x || 0)` / `x || d` on a numeric field:
absent and `0` are falsy and fall through to the default. -/
def jsNum (x : Option ℚ) (d : ℚ) : ℚ :=
  match x with
  | none => d
  | some v => if v = 0 then d else v

/-- `Map.prototype.get` on the blocked-symbols map. -/
def mapGet (m : List (String × Nat)) (k : String) : Option Nat :=
  match m with
  | [] => none
  | e :: rest => if e.1 = k then some e.2 else mapGet rest k

/-- `Map.prototype.delete` on the blocked-symbols map. -/
def mapDelete (m : List (String × Nat)) (k : String) : List (String × Nat) :=
  match m with
  | [] => []
  | e :: rest => if e.1 = k then mapDelete rest k else e :: mapDelete rest k

/-- `Map.prototype.set` on the blocked-symbols map (replace or add). -/
def mapSet (m : List (String × Nat)) (k : String) (v : Nat) :
    List (String × Nat) :=
  mapDelete m k ++ [(k, v)]

/-- `isSymbolBlocked(accountDoc, symbol)`: blocked iff the stored
timestamp is strictly in the future; an expired entry is deleted by the
read.  Returns the boolean together with the possibly-mutated document. -/
def isSymbolBlocked (now : Nat) (doc : AccountDoc) (symbol : String) :
    Bool × AccountDoc :=
  match mapGet doc.blockedSymbols symbol with
  | none => (false, doc)
  | some u =>
    if now < u then (true, doc)
    else (false, { doc with blockedSymbols := mapDelete doc.blockedSymbols symbol })

/-- `isAccountBlocked(accountDoc)`: blocked iff `blockedUntil` is set
and strictly in the future; an expired value is nulled by the read. -/
def isAccountBlocked (now : Nat) (doc : AccountDoc) : Bool × AccountDoc :=
  match doc.blockedUntil with
  | none => (false, doc)
  | some u =>
    if now < u then (true, doc)
    else (false, { doc with blockedUntil := none })

/-- The open time used by the excess-trades sort:
`new Date(a.timestamp || a.datetime || 0).getTime()`. -/
def posTime (p : Position) : Nat :=
  match p.timestamp with
  | some t => if t = 0 then p.datetime.getD 0 else t
  | none => p.datetime.getD 0

/-- The comparator `(a, b) => timeB - timeA` orders with the larger open
time first; as a relation: `a` may precede `b` iff `posTime b ≤ posTime a`. -/
def newestFirst (a b : Position) : Prop :=
  posTime b ≤ posTime a

instance : DecidableRel newestFirst := fun a b =>
  inferInstanceAs (Decidable (posTime b ≤ posTime a))

instance : IsTotal Position newestFirst :=
  ⟨fun a b => Nat.le_total (posTime b) (posTime a)⟩

instance : IsTrans Position newestFirst :=
  ⟨fun _ _ _ h1 h2 => Nat.le_trans h2 h1⟩

/-- `[...positions].sort((a, b) => timeB - timeA)`: a stable sort with
the newest position first (ties keep input order).  Modelled as
insertion sort, which is stable. -/
def sortNewestFirst (positions : List Position) : List Position :=
  List.insertionSort newestFirst positions

/-- The trade P&L percentage computed at the top of the per-position
loop: the exchange-reported `percentage` if truthy, else the derived
formula, which only runs when both `entryPrice` and `markPrice` are
truthy (non-zero). -/
def tradePnLPercent (p : Position) : ℚ :=
  let leverage := jsNum p.leverage 0
  let entryPrice := jsNum p.entryPrice 0
  let markPrice := jsNum p.markPrice (jsNum p.infoMarkPrice 0)
  let percentage := jsNum p.percentage 0
  if percentage = 0 ∧ entryPrice ≠ 0 ∧ markPrice ≠ 0 then
    if p.side = "long" then
      ((markPrice - entryPrice) / entryPrice) * 100 * leverage
    else
      ((entryPrice - markPrice) / entryPrice) * 100 * leverage
  else percentage

/-- RULE 2 body (`positions.length > riskParams.maxOpenTrades`): the
warning alert, then for each of the `excessCount` newest positions a
close followed by a trade-history record with reason
`MAX_TRADES_EXCEEDED`.  Returns the actions and the list of positions
closed. -/
def excessActionsFor (tradesToClose : List Position) : List Action :=
  match tradesToClose with
  | [] => []
  | t :: rest =>
    Action.closeOne t.symbol t.side Reason.MAX_TRADES_EXCEEDED ::
    Action.recordTrade t.symbol t.side (jsNum t.percentage 0)
      Reason.MAX_TRADES_EXCEEDED (jsNum t.leverage 0) t.contracts ::
    excessActionsFor rest

/-- RULE 2 (`MAX OPEN TRADES LIMIT`) as a whole: nothing when the count
is within the limit. -/
def excessPhase (rp : RiskParams) (positions : List Position) :
    List Action × List Position :=
  if positions.length > rp.maxOpenTrades then
    let sortedPositions := sortNewestFirst positions
    let excessCount := positions.length - rp.maxOpenTrades
    let tradesToClose := sortedPositions.take excessCount
    (Action.alert Level.warning :: excessActionsFor tradesToClose, tradesToClose)
  else ([], [])

/-- RULES 3 and 4 plus the blocked-symbol check for a single position,
in source order: leverage check first (then `continue`), else daily
per-trade limit (block the symbol, then `continue`), else close if the
symbol is already blocked. -/
def checkPosition (rp : RiskParams) (now midnight : Nat) (doc : AccountDoc)
    (p : Position) : List Action × AccountDoc :=
  let symbol := p.symbol
  let side := p.side
  let leverage := jsNum p.leverage 0
  let t := tradePnLPercent p
  if leverage > rp.maxLeverage then
    ([Action.alert Level.warning,
      Action.closeOne symbol side Reason.LEVERAGE_EXCEEDED,
      Action.recordTrade symbol side t Reason.LEVERAGE_EXCEEDED leverage p.contracts],
     doc)
  else if t ≤ -|rp.dailyDrawdownLimit| then
    ([Action.alert Level.critical,
      Action.closeOne symbol side Reason.DAILY_LIMIT_REACHED,
      Action.blockSymbolUntil symbol midnight,
      Action.recordTrade symbol side t Reason.DAILY_LIMIT_REACHED leverage p.contracts,
      Action.alert Level.warning],
     { doc with blockedSymbols := mapSet doc.blockedSymbols symbol midnight })
  else
    let r := isSymbolBlocked now doc symbol
    if r.1 then
      ([Action.alert Level.warning,
        Action.closeOne symbol side Reason.SYMBOL_BLOCKED,
        Action.recordTrade symbol side t Reason.SYMBOL_BLOCKED leverage p.contracts],
       r.2)
    else ([], r.2)

/-- The per-position loop (`for (const position of positions)`), run on
the original snapshot list, threading the document state and
concatenating the emitted actions. -/
def checkPositions (rp : RiskParams) (now midnight : Nat) (doc : AccountDoc) :
    List Position → List Action × AccountDoc
  | [] => ([], doc)
  | p :: rest =>
    let r1 := checkPosition rp now midnight doc p
    let r2 := checkPositions rp now midnight r1.2 rest
    (r1.1 ++ r2.1, r2.2)

/-- Result of one `monitorAccount` call: the emitted actions, the
updated account document, and the `accountState.isActive` flag after the
call (`false` exactly when the max-drawdown rule tripped). -/
structure MonitorResult where
  actions : List Action
  doc : AccountDoc
  stateActive : Bool
deriving DecidableEq, Repr

/-- `monitorAccount`: the whole per-cycle decision procedure.
`initialBalance` is `accountState.initialBalance`; `midnight` is the
value of `getMidnightTonight()` during this cycle. -/
def monitorAccount (now midnight : Nat) (currentBalance initialBalance : ℚ)
    (positions : List Position) (doc : AccountDoc) : MonitorResult :=
  let gate := isAccountBlocked now doc
  if gate.1 then
    { actions := [], doc := gate.2, stateActive := true }
  else
    let doc1 := gate.2
    let totalPnL := currentBalance - initialBalance
    let totalDrawdownPercent := totalPnL / initialBalance * 100
    if totalDrawdownPercent ≤ -|doc1.riskParams.maxDrawdownLimit| then
      { actions := [Action.alert Level.critical,
                    Action.closeAll Reason.MAX_DRAWDOWN,
                    Action.blockAccountUntil midnight,
                    Action.alert Level.critical],
        doc := { doc1 with blockedUntil := some midnight, isActive := false },
        stateActive := false }
    else
      let excess := excessPhase doc1.riskParams positions
      let perPos := checkPositions doc1.riskParams now midnight doc1 positions
      { actions := excess.1 ++ perPos.1 ++ [Action.recordMetrics],
        doc := perPos.2,
        stateActive := true }

/-- The in-memory `accountState` of `startMonitoring` for one account. -/
structure AccountState where
  doc : AccountDoc
  isActive : Bool
  initialBalance : ℚ
deriving DecidableEq, Repr

/-- What the environment supplies for one scheduler tick: the clock, the
midnight boundary, and the snapshot (balance and open positions). -/
structure Env where
  now : Nat
  midnight : Nat
  balance : ℚ
  positions : List Position
deriving DecidableEq, Repr

/-- One iteration of the monitoring loop for one account:
`if (!accountState.isActive) continue;` else run `monitorAccount`.  The
boolean records whether the account was evaluated this tick. -/
def tick (e : Env) (s : AccountState) : List Action × AccountState × Bool :=
  if s.isActive then
    let r := monitorAccount e.now e.midnight e.balance s.initialBalance
      e.positions s.doc
    (r.actions, { s with doc := r.doc, isActive := r.stateActive }, true)
  else ([], s, false)

/-- Run the scheduler over a list of successive tick environments,
collecting for each tick whether the account was evaluated. -/
def runTicks (s : AccountState) : List Env → List Bool
  | [] => []
  | e :: rest =>
    let r := tick e s
    r.2.2 :: runTicks r.2.1 rest

/-- The close reason carried by an action, when it has one. -/
def Action.reasonTag : Action → Option Reason
  | Action.closeOne _ _ r => some r
  | Action.closeAll r => some r
  | Action.recordTrade _ _ _ r _ _ => some r
  | _ => none

/-- Actions attributable to a single position: a per-position close or a
trade-history record. -/
def Action.isPerPosition : Action → Bool
  | Action.closeOne _ _ _ => true
  | Action.recordTrade _ _ _ _ _ _ => true
  | _ => false

/-- A `closeOne` carrying the given reason. -/
def Action.isCloseWithReason : Action → Reason → Bool
  | Action.closeOne _ _ r, rn => r == rn
  | _, _ => false

/-- The per-trade P&L percent as claim C7 words it (for the refinement
comparison with `tradePnLPercent`): the reported percentage when present
and non-zero, and otherwise the derived formula, unconditionally. -/
def tradePnLPercentSpecC7 (p : Position) : ℚ :=
  let leverage := jsNum p.leverage 0
  let entryPrice := jsNum p.entryPrice 0
  let markPrice := jsNum p.markPrice (jsNum p.infoMarkPrice 0)
  let percentage := jsNum p.percentage 0
  if percentage ≠ 0 then percentage
  else if p.side = "long" then
    ((markPrice - entryPrice) / entryPrice) * 100 * leverage
  else
    ((entryPrice - markPrice) / entryPrice) * 100 * leverage

/-- Sample risk parameters used by the concrete witnesses. -/
def rpW : RiskParams :=
  { dailyDrawdownLimit := 5, maxDrawdownLimit := 20, maxLeverage := 20,
    maxOpenTrades := 3 }

/-- Sample unblocked account document used by the concrete witnesses. -/
def docW : AccountDoc :=
  { riskParams := rpW, isActive := true, blockedSymbols := [], blockedUntil := none }

/-- A long position with entry 100, mark 94, leverage 1 and no reported
P&L: the spec's worked example for the daily per-trade limit. -/
def posLong94 : Position :=
  { symbol := "BTC/USDT", side := "long", leverage := some 1,
    entryPrice := some 100, markPrice := some 94, infoMarkPrice := none,
    percentage := none, contracts := 1, timestamp := some 1000, datetime := none }

/-- A long position whose mark price field holds 0 and whose reported
P&L is absent: the input separating `tradePnLPercent` from claim C7's
wording. -/
def posZeroMark : Position :=
  { symbol := "ETH/USDT", side := "long", leverage := some 1,
    entryPrice := some 100, markPrice := some 0, infoMarkPrice := none,
    percentage := none, contracts := 1, timestamp := none, datetime := none }

/-- A position carrying no leverage field at all (parsed as 0). -/
def posNoLeverage : Position :=
  { symbol := "SOL/USDT", side := "long", leverage := none,
    entryPrice := none, markPrice := none, infoMarkPrice := none,
    percentage := none, contracts := 2, timestamp := none, datetime := none }

/-- Risk parameters with `maxLeverage = 0` (claim C9's premise). -/
def rpLev0 : RiskParams :=
  { dailyDrawdownLimit := 5, maxDrawdownLimit := 20, maxLeverage := 0,
    maxOpenTrades := 3 }

/-- Unblocked account document with `maxLeverage = 0`. -/
def docLev0 : AccountDoc :=
  { riskParams := rpLev0, isActive := true, blockedSymbols := [], blockedUntil := none }

/-- A position on the same symbol as `posLong94` that is healthy on its
own: small positive P&L, low leverage. -/
def posSameSymbolOk : Position :=
  { symbol := "BTC/USDT", side := "long", leverage := some 2,
    entryPrice := some 100, markPrice := some 101, infoMarkPrice := none,
    percentage := none, contracts := 1, timestamp := some 2000, datetime := none }

/-- Builder for the six-position witness of claim C6: distinct symbols,
strictly increasing open timestamps. -/
def mkPosAt (s : String) (t : Nat) : Position :=
  { symbol := s, side := "long", leverage := some 1,
    entryPrice := some 100, markPrice := some 100, infoMarkPrice := none,
    percentage := none, contracts := 1, timestamp := some t, datetime := none }

/-- Six positions with strictly increasing open timestamps. -/
def sixPositions : List Position :=
  [mkPosAt "P1" 10, mkPosAt "P2" 20, mkPosAt "P3" 30,
   mkPosAt "P4" 40, mkPosAt "P5" 50, mkPosAt "P6" 60]

/-- An account document whose account-level block lies in the future of
the sample clock (10 < 100). -/
def docBlocked : AccountDoc :=
  { riskParams := rpW, isActive := true, blockedSymbols := [],
    blockedUntil := some 100 }

/-- The spec's leverage example: a position with leverage 25 (limit
will be 20) whose P&L also breaches the daily limit. -/
def posLev25 : Position :=
  { symbol := "BTC/USDT", side := "long", leverage := some 25,
    entryPrice := some 100, markPrice := some 90, infoMarkPrice := none,
    percentage := none, contracts := 1, timestamp := none, datetime := none }

/-- Tick environment in which the sample account trips max drawdown
(balance 70 against initial balance 100, limit 20%). -/
def env0 : Env :=
  { now := 10, midnight := 100, balance := 70, positions := [] }

/-- A later tick environment, strictly after the block expiry 100. -/
def envLater : Env :=
  { now := 200, midnight := 86500000, balance := 100, positions := [] }

/-- The initial in-memory account state for the scheduler scenario. -/
def accState0 : AccountState :=
  { doc := docW, isActive := true, initialBalance := 100 }

/-- A document whose symbol block and account block both expire exactly
at time 100. -/
def docExpire : AccountDoc :=
  { riskParams := rpW, isActive := true,
    blockedSymbols := [("BTC/USDT", 100)], blockedUntil := some 100 }

/-! ## Lemmas about the blocked-symbols map -/

theorem mapGet_append (l1 l2 : List (String × Nat)) (k : String) :
    mapGet (l1 ++ l2) k =
      match mapGet l1 k with
      | some v => some v
      | none => mapGet l2 k := by
  induction l1 with
  | nil => simp [mapGet]
  | cons e rest ih =>
    by_cases h : e.1 = k <;> simp [mapGet, h, ih]

theorem mapGet_mapDelete_self (m : List (String × Nat)) (k : String) :
    mapGet (mapDelete m k) k = none := by
  induction m with
  | nil => simp [mapDelete, mapGet]
  | cons e rest ih =>
    by_cases h : e.1 = k <;> simp [mapDelete, h, mapGet, ih]

theorem mapGet_mapDelete_ne (m : List (String × Nat)) (k k2 : String)
    (h : k2 ≠ k) : mapGet (mapDelete m k) k2 = mapGet m k2 := by
  induction m with
  | nil => simp [mapDelete]
  | cons e rest ih =>
    have hk : ¬ k = k2 := fun hc => h hc.symm
    by_cases he : e.1 = k
    · have he2 : ¬ e.1 = k2 := by
        rw [he]
        exact hk
      simp [mapDelete, he, mapGet, he2, ih, hk]
    · by_cases he2 : e.1 = k2 <;> simp [mapDelete, he, mapGet, he2, ih, hk, h]

theorem mapGet_mapSet_self (m : List (String × Nat)) (k : String) (v : Nat) :
    mapGet (mapSet m k v) k = some v := by
  rw [mapSet, mapGet_append]
  simp [mapGet_mapDelete_self, mapGet]

theorem mapGet_mapSet_ne (m : List (String × Nat)) (k k2 : String) (v : Nat)
    (h : k2 ≠ k) : mapGet (mapSet m k v) k2 = mapGet m k2 := by
  rw [mapSet, mapGet_append]
  rw [mapGet_mapDelete_ne m k k2 h]
  cases hm : mapGet m k2 with
  | some w => rfl
  | none =>
    have hk : ¬ k = k2 := fun hc => h hc.symm
    simp [mapGet, hk]

/-! ## Lemmas about the gate and branch shapes of the evaluator -/

theorem isAccountBlocked_none (now : Nat) (doc : AccountDoc)
    (h : doc.blockedUntil = none) : isAccountBlocked now doc = (false, doc) := by
  simp [isAccountBlocked, h]

theorem isAccountBlocked_preserves (now : Nat) (doc : AccountDoc) :
    (isAccountBlocked now doc).2.riskParams = doc.riskParams ∧
    (isAccountBlocked now doc).2.blockedSymbols = doc.blockedSymbols := by
  unfold isAccountBlocked
  cases doc.blockedUntil with
  | none => exact ⟨rfl, rfl⟩
  | some u =>
    by_cases h : now < u <;> simp [h]

theorem monitorAccount_drawdown_eq (now midnight : Nat)
    (currentBalance initialBalance : ℚ) (positions : List Position)
    (doc : AccountDoc) (hgate : (isAccountBlocked now doc).1 = false)
    (hdd : (currentBalance - initialBalance) / initialBalance * 100 ≤
      -|doc.riskParams.maxDrawdownLimit|) :
    monitorAccount now midnight currentBalance initialBalance positions doc =
      { actions := [Action.alert Level.critical,
                    Action.closeAll Reason.MAX_DRAWDOWN,
                    Action.blockAccountUntil midnight,
                    Action.alert Level.critical],
        doc := { (isAccountBlocked now doc).2 with
                   blockedUntil := some midnight, isActive := false },
        stateActive := false } := by
  have hrp := (isAccountBlocked_preserves now doc).1
  unfold monitorAccount
  simp only [hgate, Bool.false_eq_true, if_false, hrp, if_pos hdd]

theorem monitorAccount_run_eq (now midnight : Nat)
    (currentBalance initialBalance : ℚ) (positions : List Position)
    (doc : AccountDoc) (hgate : doc.blockedUntil = none)
    (hdd : ¬ (currentBalance - initialBalance) / initialBalance * 100 ≤
      -|doc.riskParams.maxDrawdownLimit|) :
    monitorAccount now midnight currentBalance initialBalance positions doc =
      { actions := (excessPhase doc.riskParams positions).1 ++
          (checkPositions doc.riskParams now midnight doc positions).1 ++
          [Action.recordMetrics],
        doc := (checkPositions doc.riskParams now midnight doc positions).2,
        stateActive := true } := by
  unfold monitorAccount
  rw [isAccountBlocked_none now doc hgate]
  simp only [if_neg hdd]
  simp

theorem checkPosition_leverage_eq (rp : RiskParams) (now midnight : Nat)
    (doc : AccountDoc) (p : Position)
    (h : jsNum p.leverage 0 > rp.maxLeverage) :
    checkPosition rp now midnight doc p =
      ([Action.alert Level.warning,
        Action.closeOne p.symbol p.side Reason.LEVERAGE_EXCEEDED,
        Action.recordTrade p.symbol p.side (tradePnLPercent p)
          Reason.LEVERAGE_EXCEEDED (jsNum p.leverage 0) p.contracts],
       doc) := by
  unfold checkPosition
  rw [if_pos h]

theorem checkPosition_daily_eq (rp : RiskParams) (now midnight : Nat)
    (doc : AccountDoc) (p : Position)
    (hlev : ¬ jsNum p.leverage 0 > rp.maxLeverage)
    (hpnl : tradePnLPercent p ≤ -|rp.dailyDrawdownLimit|) :
    checkPosition rp now midnight doc p =
      ([Action.alert Level.critical,
        Action.closeOne p.symbol p.side Reason.DAILY_LIMIT_REACHED,
        Action.blockSymbolUntil p.symbol midnight,
        Action.recordTrade p.symbol p.side (tradePnLPercent p)
          Reason.DAILY_LIMIT_REACHED (jsNum p.leverage 0) p.contracts,
        Action.alert Level.warning],
       { doc with blockedSymbols := mapSet doc.blockedSymbols p.symbol midnight }) := by
  unfold checkPosition
  rw [if_neg hlev, if_pos hpnl]

theorem checkPosition_symBlocked_eq (rp : RiskParams) (now midnight : Nat)
    (doc : AccountDoc) (p : Position)
    (hlev : ¬ jsNum p.leverage 0 > rp.maxLeverage)
    (hdaily : ¬ tradePnLPercent p ≤ -|rp.dailyDrawdownLimit|)
    (hb : (isSymbolBlocked now doc p.symbol).1 = true) :
    checkPosition rp now midnight doc p =
      ([Action.alert Level.warning,
        Action.closeOne p.symbol p.side Reason.SYMBOL_BLOCKED,
        Action.recordTrade p.symbol p.side (tradePnLPercent p)
          Reason.SYMBOL_BLOCKED (jsNum p.leverage 0) p.contracts],
       (isSymbolBlocked now doc p.symbol).2) := by
  unfold checkPosition
  rw [if_neg hlev, if_neg hdaily]
  simp [hb]

theorem checkPosition_notBlocked_eq (rp : RiskParams) (now midnight : Nat)
    (doc : AccountDoc) (p : Position)
    (hlev : ¬ jsNum p.leverage 0 > rp.maxLeverage)
    (hdaily : ¬ tradePnLPercent p ≤ -|rp.dailyDrawdownLimit|)
    (hb : (isSymbolBlocked now doc p.symbol).1 = false) :
    checkPosition rp now midnight doc p =
      ([], (isSymbolBlocked now doc p.symbol).2) := by
  unfold checkPosition
  rw [if_neg hlev, if_neg hdaily]
  simp [hb]

theorem checkPositions_append (rp : RiskParams) (now midnight : Nat)
    (doc : AccountDoc) (l1 l2 : List Position) :
    checkPositions rp now midnight doc (l1 ++ l2) =
      ((checkPositions rp now midnight doc l1).1 ++
        (checkPositions rp now midnight
          (checkPositions rp now midnight doc l1).2 l2).1,
       (checkPositions rp now midnight
          (checkPositions rp now midnight doc l1).2 l2).2) := by
  induction l1 generalizing doc with
  | nil => simp [checkPositions]
  | cons p rest ih =>
    simp only [List.cons_append, checkPositions, List.append_eq]
    rw [ih]
    simp [List.append_assoc]

/-! ## Claim theorems -/

/-- C1: in every evaluation cycle that reaches the evaluator with
`totalDrawdownPercent ≤ -|maxDrawdownLimit|`, the emitted action
sequence begins with `Alert(critical)`, `CloseAll(MAX_DRAWDOWN)`,
`BlockAccountUntil(midnight)`; the account is blocked until midnight and
deactivated; and no excess-trade or per-position action is emitted,
regardless of the open positions. -/
theorem claim1_maxDrawdown_halts_cycle (now midnight : Nat)
    (currentBalance initialBalance : ℚ) (positions : List Position)
    (doc : AccountDoc) (hgate : (isAccountBlocked now doc).1 = false)
    (hdd : (currentBalance - initialBalance) / initialBalance * 100 ≤
      -|doc.riskParams.maxDrawdownLimit|) :
    (monitorAccount now midnight currentBalance initialBalance positions doc).actions.take 3 =
      [Action.alert Level.critical, Action.closeAll Reason.MAX_DRAWDOWN,
       Action.blockAccountUntil midnight] ∧
    (monitorAccount now midnight currentBalance initialBalance positions doc).doc.blockedUntil =
      some midnight ∧
    (monitorAccount now midnight currentBalance initialBalance positions doc).doc.isActive =
      false ∧
    (monitorAccount now midnight currentBalance initialBalance positions doc).stateActive =
      false ∧
    ∀ a ∈ (monitorAccount now midnight currentBalance initialBalance positions doc).actions,
      a.isPerPosition = false := by
  rw [monitorAccount_drawdown_eq now midnight currentBalance initialBalance
    positions doc hgate hdd]
  refine ⟨rfl, rfl, rfl, rfl, ?_⟩
  intro a ha
  simp only [List.mem_cons, List.not_mem_nil, or_false] at ha
  rcases ha with rfl | rfl | rfl | rfl <;> rfl

/-- Witness for C1: balance 70 on initial balance 100 with limit 20%
(drawdown -30%), one open position. -/
theorem claim1_witness :
    (isAccountBlocked 10 docW).1 = false ∧
    ((70 : ℚ) - 100) / 100 * 100 ≤ -|docW.riskParams.maxDrawdownLimit| ∧
    ((monitorAccount 10 100 70 100 [posLong94] docW).actions.take 3 =
      [Action.alert Level.critical, Action.closeAll Reason.MAX_DRAWDOWN,
       Action.blockAccountUntil 100] ∧
     (monitorAccount 10 100 70 100 [posLong94] docW).doc.blockedUntil = some 100 ∧
     (monitorAccount 10 100 70 100 [posLong94] docW).doc.isActive = false ∧
     (monitorAccount 10 100 70 100 [posLong94] docW).stateActive = false ∧
     ∀ a ∈ (monitorAccount 10 100 70 100 [posLong94] docW).actions,
       a.isPerPosition = false) := by
  refine ⟨rfl, by norm_num [docW, rpW], ?_⟩
  exact claim1_maxDrawdown_halts_cycle 10 100 70 100 [posLong94] docW rfl
    (by norm_num [docW, rpW])

/-- C2: an account whose `blockedUntil` is strictly in the future is
skipped entirely: the cycle emits no actions at all and returns the
document unchanged. -/
theorem claim2_blocked_account_skipped (now midnight : Nat)
    (currentBalance initialBalance : ℚ) (positions : List Position)
    (doc : AccountDoc) (u : Nat) (hu : doc.blockedUntil = some u)
    (hfut : now < u) :
    monitorAccount now midnight currentBalance initialBalance positions doc =
      { actions := [], doc := doc, stateActive := true } := by
  unfold monitorAccount
  simp [isAccountBlocked, hu, hfut]

/-- Witness for C2: block until 100, evaluated at time 10, with a
position open and a losing balance. -/
theorem claim2_witness :
    docBlocked.blockedUntil = some 100 ∧ 10 < 100 ∧
    monitorAccount 10 50 70 100 [posLong94] docBlocked =
      { actions := [], doc := docBlocked, stateActive := true } := by
  refine ⟨rfl, by decide, ?_⟩
  exact claim2_blocked_account_skipped 10 50 70 100 [posLong94] docBlocked 100
    rfl (by decide)

/-- C4: a position whose leverage strictly exceeds `maxLeverage` yields
exactly `Alert(warning)`, `CloseOne(LEVERAGE_EXCEEDED)`,
`RecordTrade(LEVERAGE_EXCEEDED)` from its per-position check, the
blocking state is untouched, and no `DAILY_LIMIT_REACHED`,
`SYMBOL_BLOCKED` or symbol-block action is attributed to it — even if
its P&L breaches the daily limit or its symbol is blocked. -/
theorem claim4_leverage_precedence (rp : RiskParams) (now midnight : Nat)
    (doc : AccountDoc) (p : Position)
    (h : jsNum p.leverage 0 > rp.maxLeverage) :
    (checkPosition rp now midnight doc p).1 =
      [Action.alert Level.warning,
       Action.closeOne p.symbol p.side Reason.LEVERAGE_EXCEEDED,
       Action.recordTrade p.symbol p.side (tradePnLPercent p)
         Reason.LEVERAGE_EXCEEDED (jsNum p.leverage 0) p.contracts] ∧
    (checkPosition rp now midnight doc p).2 = doc ∧
    ∀ a ∈ (checkPosition rp now midnight doc p).1,
      a.reasonTag ≠ some Reason.DAILY_LIMIT_REACHED ∧
      a.reasonTag ≠ some Reason.SYMBOL_BLOCKED ∧
      (∀ s u, a ≠ Action.blockSymbolUntil s u) := by
  rw [checkPosition_leverage_eq rp now midnight doc p h]
  refine ⟨rfl, rfl, ?_⟩
  intro a ha
  simp only [List.mem_cons, List.not_mem_nil, or_false] at ha
  rcases ha with rfl | rfl | rfl <;> exact ⟨by simp [Action.reasonTag],
    by simp [Action.reasonTag], by intro s u hc; cases hc⟩

/-- Witness for C4: leverage 25 against limit 20, with a P&L of -250%
that also breaches the daily limit of 5%. -/
theorem claim4_witness :
    jsNum posLev25.leverage 0 > rpW.maxLeverage ∧
    tradePnLPercent posLev25 ≤ -|rpW.dailyDrawdownLimit| ∧
    ((checkPosition rpW 10 100 docW posLev25).1 =
      [Action.alert Level.warning,
       Action.closeOne posLev25.symbol posLev25.side Reason.LEVERAGE_EXCEEDED,
       Action.recordTrade posLev25.symbol posLev25.side (tradePnLPercent posLev25)
         Reason.LEVERAGE_EXCEEDED (jsNum posLev25.leverage 0) posLev25.contracts] ∧
     (checkPosition rpW 10 100 docW posLev25).2 = docW ∧
     ∀ a ∈ (checkPosition rpW 10 100 docW posLev25).1,
       a.reasonTag ≠ some Reason.DAILY_LIMIT_REACHED ∧
       a.reasonTag ≠ some Reason.SYMBOL_BLOCKED ∧
       (∀ s u, a ≠ Action.blockSymbolUntil s u)) := by
  refine ⟨by norm_num [posLev25, rpW, jsNum], ?_, ?_⟩
  · norm_num [tradePnLPercent, posLev25, rpW, jsNum]
  · exact claim4_leverage_precedence rpW 10 100 docW posLev25
      (by norm_num [posLev25, rpW, jsNum])

/-- C5: a position that passes the leverage check and whose trade P&L
is at or below `-|dailyDrawdownLimit|` yields
`CloseOne(DAILY_LIMIT_REACHED)` and `BlockSymbolUntil(symbol, midnight)`
(the `getMidnightTonight()` boundary of the cycle), and the updated
blocking state maps the symbol to midnight. -/
theorem claim5_daily_limit_blocks_symbol (rp : RiskParams) (now midnight : Nat)
    (doc : AccountDoc) (p : Position)
    (hlev : ¬ jsNum p.leverage 0 > rp.maxLeverage)
    (hpnl : tradePnLPercent p ≤ -|rp.dailyDrawdownLimit|) :
    (checkPosition rp now midnight doc p).1 =
      [Action.alert Level.critical,
       Action.closeOne p.symbol p.side Reason.DAILY_LIMIT_REACHED,
       Action.blockSymbolUntil p.symbol midnight,
       Action.recordTrade p.symbol p.side (tradePnLPercent p)
         Reason.DAILY_LIMIT_REACHED (jsNum p.leverage 0) p.contracts,
       Action.alert Level.warning] ∧
    mapGet (checkPosition rp now midnight doc p).2.blockedSymbols p.symbol =
      some midnight := by
  rw [checkPosition_daily_eq rp now midnight doc p hlev hpnl]
  exact ⟨rfl, mapGet_mapSet_self doc.blockedSymbols p.symbol midnight⟩

/-- Witness for C5: the spec's worked example — daily limit 5, long
position entry 100, mark 94, leverage 1, derived P&L -6%. -/
theorem claim5_witness :
    (¬ jsNum posLong94.leverage 0 > rpW.maxLeverage) ∧
    tradePnLPercent posLong94 = -6 ∧
    tradePnLPercent posLong94 ≤ -|rpW.dailyDrawdownLimit| ∧
    ((checkPosition rpW 10 86400000 docW posLong94).1 =
      [Action.alert Level.critical,
       Action.closeOne posLong94.symbol posLong94.side Reason.DAILY_LIMIT_REACHED,
       Action.blockSymbolUntil posLong94.symbol 86400000,
       Action.recordTrade posLong94.symbol posLong94.side (tradePnLPercent posLong94)
         Reason.DAILY_LIMIT_REACHED (jsNum posLong94.leverage 0) posLong94.contracts,
       Action.alert Level.warning] ∧
     mapGet (checkPosition rpW 10 86400000 docW posLong94).2.blockedSymbols
       posLong94.symbol = some 86400000) := by
  refine ⟨by norm_num [posLong94, rpW, jsNum], ?_, ?_, ?_⟩
  · norm_num [tradePnLPercent, posLong94, jsNum]
  · norm_num [tradePnLPercent, posLong94, rpW, jsNum]
  · exact claim5_daily_limit_blocks_symbol rpW 10 86400000 docW posLong94
      (by norm_num [posLong94, rpW, jsNum])
      (by norm_num [tradePnLPercent, posLong94, rpW, jsNum])

theorem runTicks_inactive (s : AccountState) (h : s.isActive = false)
    (envs : List Env) : runTicks s envs = List.replicate envs.length false := by
  induction envs with
  | nil => rfl
  | cons e rest ih => simp [runTicks, tick, h, ih, List.replicate_succ]

/-- C3 (documents the code bug): when the max-drawdown rule trips, the
code sets `accountState.isActive = false`, and the scheduler loop's
`if (!accountState.isActive) continue` then skips the account on every
subsequent tick — for arbitrary later environments, including ones whose
clock is past the block expiry — so monitoring never resumes, contrary
to the claimed `ACCOUNT_BLOCKED(until) → UNBLOCKED` reactivation. -/
theorem claim3_monitoring_never_resumes (e : Env) (s : AccountState)
    (hactive : s.isActive = true)
    (hgate : (isAccountBlocked e.now s.doc).1 = false)
    (hdd : (e.balance - s.initialBalance) / s.initialBalance * 100 ≤
      -|s.doc.riskParams.maxDrawdownLimit|)
    (envs : List Env) :
    (tick e s).2.1.doc.blockedUntil = some e.midnight ∧
    (tick e s).2.1.isActive = false ∧
    runTicks (tick e s).2.1 envs = List.replicate envs.length false := by
  have hm := monitorAccount_drawdown_eq e.now e.midnight e.balance
    s.initialBalance e.positions s.doc hgate hdd
  have ht : (tick e s).2.1 =
      { doc := { (isAccountBlocked e.now s.doc).2 with
                   blockedUntil := some e.midnight, isActive := false },
        isActive := false, initialBalance := s.initialBalance } := by
    simp [tick, hactive, hm]
  rw [ht]
  exact ⟨rfl, rfl, runTicks_inactive _ rfl envs⟩

/-- Witness for C3: the account trips max drawdown (balance 70 of 100,
limit 20%) at time 10 with block expiry 100; a later tick at time 200 —
after the expiry — still does not evaluate the account. -/
theorem claim3_witness :
    accState0.isActive = true ∧
    (isAccountBlocked env0.now accState0.doc).1 = false ∧
    (env0.balance - accState0.initialBalance) / accState0.initialBalance * 100 ≤
      -|accState0.doc.riskParams.maxDrawdownLimit| ∧
    envLater.now ≥ env0.midnight ∧
    ((tick env0 accState0).2.1.doc.blockedUntil = some env0.midnight ∧
     (tick env0 accState0).2.1.isActive = false ∧
     runTicks (tick env0 accState0).2.1 [envLater] =
       List.replicate [envLater].length false) := by
  refine ⟨rfl, rfl, by norm_num [env0, accState0, docW, rpW], by decide, ?_⟩
  exact claim3_monitoring_never_resumes env0 accState0 rfl rfl
    (by norm_num [env0, accState0, docW, rpW]) [envLater]

/-- Counterexample to C7 as stated: a long position with entry 100, a
mark-price field holding 0, leverage 1 and no reported P&L.  The claimed
formula gives ((0 - 100)/100) * 100 * 1 = -100, but the code's guard
`entryPrice && markPrice` is falsy at mark 0, so the code keeps the
defaulted reported value 0. -/
theorem claim7_counterexample :
    tradePnLPercent posZeroMark = 0 ∧
    tradePnLPercentSpecC7 posZeroMark = -100 ∧
    tradePnLPercent posZeroMark ≠ tradePnLPercentSpecC7 posZeroMark := by
  refine ⟨?_, ?_, ?_⟩ <;>
    norm_num [tradePnLPercent, tradePnLPercentSpecC7, posZeroMark, jsNum]

/-- C7 amended: the trade P&L percent equals `reportedPnlPercent` when
that is present and non-zero; otherwise it equals the side-dependent
derived formula only when both the entry price and the (fallback) mark
price are present and non-zero; when either is absent or zero it stays
at the defaulted reported value 0. -/
theorem claim7_pnl_fallback_amended (p : Position) :
    (jsNum p.percentage 0 ≠ 0 → tradePnLPercent p = jsNum p.percentage 0) ∧
    (jsNum p.percentage 0 = 0 → jsNum p.entryPrice 0 ≠ 0 →
      jsNum p.markPrice (jsNum p.infoMarkPrice 0) ≠ 0 →
      tradePnLPercent p = tradePnLPercentSpecC7 p) ∧
    (jsNum p.percentage 0 = 0 →
      (jsNum p.entryPrice 0 = 0 ∨ jsNum p.markPrice (jsNum p.infoMarkPrice 0) = 0) →
      tradePnLPercent p = 0) := by
  refine ⟨?_, ?_, ?_⟩
  · intro hpc
    simp [tradePnLPercent, hpc]
  · intro hpc hentry hmark
    simp [tradePnLPercent, tradePnLPercentSpecC7, hpc, hentry, hmark]
  · intro hpc hzero
    rcases hzero with hz | hz <;> simp [tradePnLPercent, hpc, hz]

/-- Witness for C7 (amended): on the spec's own example (entry 100,
mark 94, leverage 1, long, no reported P&L) the code agrees with the
derived formula and yields -6. -/
theorem claim7_witness :
    jsNum posLong94.percentage 0 = 0 ∧
    jsNum posLong94.entryPrice 0 ≠ 0 ∧
    jsNum posLong94.markPrice (jsNum posLong94.infoMarkPrice 0) ≠ 0 ∧
    tradePnLPercent posLong94 = tradePnLPercentSpecC7 posLong94 := by
  refine ⟨rfl, by norm_num [posLong94, jsNum], by norm_num [posLong94, jsNum], ?_⟩
  exact (claim7_pnl_fallback_amended posLong94).2.1 rfl
    (by norm_num [posLong94, jsNum]) (by norm_num [posLong94, jsNum])

/-- C8: on every read of the blocking state, an entry blocks iff its
timestamp is strictly in the future; an entry whose timestamp equals the
current time counts as expired, and an expired entry observed by the
read is removed by that read (symbol-level and account-level alike). -/
theorem claim8_strict_future_blocking (now : Nat) (doc : AccountDoc)
    (symbol : String) :
    ((isSymbolBlocked now doc symbol).1 = true ↔
      ∃ u, mapGet doc.blockedSymbols symbol = some u ∧ now < u) ∧
    (∀ u, mapGet doc.blockedSymbols symbol = some u → ¬ now < u →
      (isSymbolBlocked now doc symbol).1 = false ∧
      mapGet (isSymbolBlocked now doc symbol).2.blockedSymbols symbol = none) ∧
    ((isAccountBlocked now doc).1 = true ↔
      ∃ u, doc.blockedUntil = some u ∧ now < u) ∧
    (∀ u, doc.blockedUntil = some u → ¬ now < u →
      (isAccountBlocked now doc).1 = false ∧
      (isAccountBlocked now doc).2.blockedUntil = none) := by
  refine ⟨?_, ?_, ?_, ?_⟩
  · unfold isSymbolBlocked
    cases hm : mapGet doc.blockedSymbols symbol with
    | none => simp
    | some u =>
      by_cases hu : now < u <;> simp [hu]
  · intro u hm hexp
    unfold isSymbolBlocked
    rw [hm]
    simp [hexp, mapGet_mapDelete_self]
  · unfold isAccountBlocked
    cases hb : doc.blockedUntil with
    | none => simp
    | some u =>
      by_cases hu : now < u <;> simp [hu]
  · intro u hb hexp
    unfold isAccountBlocked
    rw [hb]
    simp [hexp]

/-- Witness for C8: a symbol entry and an account block both expiring
exactly at the current time 100 are reported unblocked and purged. -/
theorem claim8_witness :
    ((isSymbolBlocked 100 docExpire "BTC/USDT").1 = false ∧
     mapGet (isSymbolBlocked 100 docExpire "BTC/USDT").2.blockedSymbols
       "BTC/USDT" = none) ∧
    ((isAccountBlocked 100 docExpire).1 = false ∧
     (isAccountBlocked 100 docExpire).2.blockedUntil = none) := by
  constructor
  · exact (claim8_strict_future_blocking 100 docExpire "BTC/USDT").2.1 100
      (by simp [docExpire, mapGet]) (by decide)
  · exact (claim8_strict_future_blocking 100 docExpire "BTC/USDT").2.2.2 100 rfl
      (by decide)

/-- Counterexample to C9 as stated: with `maxLeverage = 0` and a single
open position whose leverage field is absent (parsed as 0), the cycle
emits no `LEVERAGE_EXCEEDED` close at all — the check is a strict
`leverage > maxLeverage`, so a limit of 0 does not trip on leverage 0. -/
theorem claim9_counterexample :
    docLev0.riskParams.maxLeverage = 0 ∧
    jsNum posNoLeverage.leverage 0 = 0 ∧
    (monitorAccount 10 100 100 100 [posNoLeverage] docLev0).actions.countP
      (fun a => a.isCloseWithReason Reason.LEVERAGE_EXCEEDED) = 0 := by
  refine ⟨rfl, rfl, ?_⟩
  norm_num [monitorAccount, isAccountBlocked, docLev0, rpLev0, excessPhase,
    checkPositions, checkPosition, posNoLeverage, tradePnLPercent, jsNum,
    isSymbolBlocked, mapGet, List.countP, List.countP.go, Action.isCloseWithReason]

/-- C9 amended: with `maxLeverage = 0` the leverage rule trips for every
position whose parsed leverage is strictly positive (exactly one
`CloseOne(LEVERAGE_EXCEEDED)` is attributed to it), but not for a
position whose leverage is absent or 0, because the comparison is
strict. -/
theorem claim9_zero_limit_amended (rp : RiskParams) (now midnight : Nat)
    (doc : AccountDoc) (p : Position) (hm : rp.maxLeverage = 0) :
    (0 < jsNum p.leverage 0 →
      (checkPosition rp now midnight doc p).1.countP
        (fun a => a.isCloseWithReason Reason.LEVERAGE_EXCEEDED) = 1) ∧
    (jsNum p.leverage 0 = 0 →
      (checkPosition rp now midnight doc p).1.countP
        (fun a => a.isCloseWithReason Reason.LEVERAGE_EXCEEDED) = 0) := by
  constructor
  · intro hpos
    have hgt : jsNum p.leverage 0 > rp.maxLeverage := by rw [hm]; exact hpos
    rw [checkPosition_leverage_eq rp now midnight doc p hgt]
    rfl
  · intro hz
    have hng : ¬ jsNum p.leverage 0 > rp.maxLeverage := by
      rw [hm, hz]
      exact lt_irrefl 0
    by_cases hd : tradePnLPercent p ≤ -|rp.dailyDrawdownLimit|
    · rw [checkPosition_daily_eq rp now midnight doc p hng hd]
      rfl
    · cases hb : (isSymbolBlocked now doc p.symbol).1 with
      | false =>
        rw [checkPosition_notBlocked_eq rp now midnight doc p hng hd hb]
        rfl
      | true =>
        rw [checkPosition_symBlocked_eq rp now midnight doc p hng hd hb]
        rfl

/-- Witness for C9 (amended): with limit 0 a position of leverage 1
trips the rule, and the no-leverage position does not. -/
theorem claim9_witness :
    rpLev0.maxLeverage = 0 ∧
    (0 : ℚ) < jsNum posLong94.leverage 0 ∧
    (checkPosition rpLev0 10 100 docLev0 posLong94).1.countP
      (fun a => a.isCloseWithReason Reason.LEVERAGE_EXCEEDED) = 1 ∧
    jsNum posNoLeverage.leverage 0 = 0 ∧
    (checkPosition rpLev0 10 100 docLev0 posNoLeverage).1.countP
      (fun a => a.isCloseWithReason Reason.LEVERAGE_EXCEEDED) = 0 := by
  refine ⟨rfl, by norm_num [posLong94, jsNum], ?_, rfl, ?_⟩
  · exact (claim9_zero_limit_amended rpLev0 10 100 docLev0 posLong94 rfl).1
      (by norm_num [posLong94, jsNum])
  · exact (claim9_zero_limit_amended rpLev0 10 100 docLev0 posNoLeverage rfl).2 rfl

theorem excessPhase_pos_eq (rp : RiskParams) (positions : List Position)
    (h : positions.length > rp.maxOpenTrades) :
    excessPhase rp positions =
      (Action.alert Level.warning ::
        excessActionsFor ((sortNewestFirst positions).take
          (positions.length - rp.maxOpenTrades)),
       (sortNewestFirst positions).take (positions.length - rp.maxOpenTrades)) := by
  unfold excessPhase
  rw [if_pos h]

theorem countP_excessActionsFor (l : List Position) :
    (excessActionsFor l).countP
      (fun a => a.isCloseWithReason Reason.MAX_TRADES_EXCEEDED) = l.length := by
  induction l with
  | nil => rfl
  | cons t rest ih =>
    rw [excessActionsFor, List.countP_cons, List.countP_cons, ih]
    simp [Action.isCloseWithReason]

theorem checkPosition_no_maxTrades (rp : RiskParams) (now midnight : Nat)
    (doc : AccountDoc) (p : Position) :
    ∀ a ∈ (checkPosition rp now midnight doc p).1,
      a.isCloseWithReason Reason.MAX_TRADES_EXCEEDED = false := by
  by_cases hlev : jsNum p.leverage 0 > rp.maxLeverage
  · rw [checkPosition_leverage_eq rp now midnight doc p hlev]
    intro a ha
    simp only [List.mem_cons, List.not_mem_nil, or_false] at ha
    rcases ha with rfl | rfl | rfl <;> rfl
  · by_cases hd : tradePnLPercent p ≤ -|rp.dailyDrawdownLimit|
    · rw [checkPosition_daily_eq rp now midnight doc p hlev hd]
      intro a ha
      simp only [List.mem_cons, List.not_mem_nil, or_false] at ha
      rcases ha with rfl | rfl | rfl | rfl | rfl <;> rfl
    · cases hb : (isSymbolBlocked now doc p.symbol).1 with
      | false =>
        rw [checkPosition_notBlocked_eq rp now midnight doc p hlev hd hb]
        intro a ha
        simp at ha
      | true =>
        rw [checkPosition_symBlocked_eq rp now midnight doc p hlev hd hb]
        intro a ha
        simp only [List.mem_cons, List.not_mem_nil, or_false] at ha
        rcases ha with rfl | rfl | rfl <;> rfl

theorem checkPositions_countP_maxTrades (rp : RiskParams) (now midnight : Nat)
    (ps : List Position) (doc : AccountDoc) :
    (checkPositions rp now midnight doc ps).1.countP
      (fun a => a.isCloseWithReason Reason.MAX_TRADES_EXCEEDED) = 0 := by
  induction ps generalizing doc with
  | nil => rfl
  | cons p rest ih =>
    have h1 : (checkPosition rp now midnight doc p).1.countP
        (fun a => a.isCloseWithReason Reason.MAX_TRADES_EXCEEDED) = 0 := by
      rw [List.countP_eq_zero]
      intro a ha
      simp [checkPosition_no_maxTrades rp now midnight doc p a ha]
    simp only [checkPositions, List.countP_append, h1, ih, Nat.add_zero]

/-- C6: whenever `len(positions) > maxOpenTrades`, the excess-trade rule
closes exactly `len - maxOpenTrades` positions with reason
`MAX_TRADES_EXCEEDED` (counted over the whole cycle's actions), and they
are exactly the first `len - maxOpenTrades` entries of the stable
newest-first sort of the snapshot; the sort is a permutation of the
input, sorted descending by open time, and the remaining (oldest)
`maxOpenTrades` positions are untouched by this rule. -/
theorem claim6_excess_trades_close_newest (now midnight : Nat)
    (currentBalance initialBalance : ℚ) (positions : List Position)
    (doc : AccountDoc) (hgate : doc.blockedUntil = none)
    (hdd : ¬ (currentBalance - initialBalance) / initialBalance * 100 ≤
      -|doc.riskParams.maxDrawdownLimit|)
    (hcount : positions.length > doc.riskParams.maxOpenTrades) :
    (excessPhase doc.riskParams positions).2 =
      (sortNewestFirst positions).take
        (positions.length - doc.riskParams.maxOpenTrades) ∧
    (excessPhase doc.riskParams positions).2.length =
      positions.length - doc.riskParams.maxOpenTrades ∧
    (monitorAccount now midnight currentBalance initialBalance positions doc).actions.countP
      (fun a => a.isCloseWithReason Reason.MAX_TRADES_EXCEEDED) =
      positions.length - doc.riskParams.maxOpenTrades ∧
    List.Perm (sortNewestFirst positions) positions ∧
    List.Sorted newestFirst (sortNewestFirst positions) ∧
    ((sortNewestFirst positions).drop
      (positions.length - doc.riskParams.maxOpenTrades)).length =
      doc.riskParams.maxOpenTrades := by
  have hperm : List.Perm (sortNewestFirst positions) positions :=
    List.perm_insertionSort newestFirst positions
  have hlen : (sortNewestFirst positions).length = positions.length :=
    hperm.length_eq
  have hsub : positions.length - doc.riskParams.maxOpenTrades ≤ positions.length :=
    Nat.sub_le _ _
  refine ⟨?_, ?_, ?_, hperm, List.sorted_insertionSort newestFirst positions, ?_⟩
  · rw [excessPhase_pos_eq doc.riskParams positions hcount]
  · rw [excessPhase_pos_eq doc.riskParams positions hcount]
    simp only [List.length_take, hlen]
    exact Nat.min_eq_left hsub
  · rw [monitorAccount_run_eq now midnight currentBalance initialBalance
      positions doc hgate hdd]
    simp only [List.countP_append, checkPositions_countP_maxTrades]
    rw [excessPhase_pos_eq doc.riskParams positions hcount]
    simp only [List.countP_cons, countP_excessActionsFor]
    simp only [List.length_take, hlen, List.countP, List.countP.go,
      Action.isCloseWithReason]
    simp [Nat.min_eq_left hsub]
  · rw [List.length_drop, hlen]
    exact Nat.sub_sub_self (Nat.le_of_lt hcount)

/-- Witness for C6: the spec's worked example — `maxOpenTrades = 3` and
six positions with strictly increasing open timestamps; exactly the
three newest (P6, P5, P4) are selected for closure. -/
theorem claim6_witness :
    docW.blockedUntil = none ∧
    (¬ ((100 : ℚ) - 100) / 100 * 100 ≤ -|docW.riskParams.maxDrawdownLimit|) ∧
    sixPositions.length > docW.riskParams.maxOpenTrades ∧
    ((excessPhase docW.riskParams sixPositions).2 =
      (sortNewestFirst sixPositions).take
        (sixPositions.length - docW.riskParams.maxOpenTrades) ∧
     (excessPhase docW.riskParams sixPositions).2.length =
      sixPositions.length - docW.riskParams.maxOpenTrades ∧
     (monitorAccount 10 100 100 100 sixPositions docW).actions.countP
      (fun a => a.isCloseWithReason Reason.MAX_TRADES_EXCEEDED) =
      sixPositions.length - docW.riskParams.maxOpenTrades ∧
     List.Perm (sortNewestFirst sixPositions) sixPositions ∧
     List.Sorted newestFirst (sortNewestFirst sixPositions) ∧
     ((sortNewestFirst sixPositions).drop
      (sixPositions.length - docW.riskParams.maxOpenTrades)).length =
      docW.riskParams.maxOpenTrades) ∧
    (excessPhase docW.riskParams sixPositions).2.map Position.symbol =
      ["P6", "P5", "P4"] := by
  refine ⟨rfl, by norm_num [docW, rpW], by decide, ?_, ?_⟩
  · exact claim6_excess_trades_close_newest 10 100 100 100 sixPositions docW
      rfl (by norm_num [docW, rpW]) (by decide)
  · decide

theorem isSymbolBlocked_eq_blocked (now : Nat) (doc : AccountDoc) (sym : String)
    (u : Nat) (hg : mapGet doc.blockedSymbols sym = some u) (hu : now < u) :
    isSymbolBlocked now doc sym = (true, doc) := by
  unfold isSymbolBlocked
  rw [hg]
  simp [hu]

theorem isSymbolBlocked_eq_none (now : Nat) (doc : AccountDoc) (sym : String)
    (hg : mapGet doc.blockedSymbols sym = none) :
    isSymbolBlocked now doc sym = (false, doc) := by
  unfold isSymbolBlocked
  rw [hg]

theorem isSymbolBlocked_eq_expired (now : Nat) (doc : AccountDoc) (sym : String)
    (u : Nat) (hg : mapGet doc.blockedSymbols sym = some u) (hu : ¬ now < u) :
    isSymbolBlocked now doc sym =
      (false, { doc with blockedSymbols := mapDelete doc.blockedSymbols sym }) := by
  unfold isSymbolBlocked
  rw [hg]
  simp [hu]

theorem isSymbolBlocked_snd_get (now : Nat) (doc : AccountDoc) (sym S : String)
    (m : Nat) (hb : mapGet doc.blockedSymbols S = some m) (hnow : now < m) :
    mapGet (isSymbolBlocked now doc sym).2.blockedSymbols S = some m := by
  by_cases hs : sym = S
  · subst hs
    rw [isSymbolBlocked_eq_blocked now doc sym m hb hnow]
    exact hb
  · cases hg : mapGet doc.blockedSymbols sym with
    | none =>
      rw [isSymbolBlocked_eq_none now doc sym hg]
      exact hb
    | some u =>
      by_cases hu : now < u
      · rw [isSymbolBlocked_eq_blocked now doc sym u hg hu]
        exact hb
      · rw [isSymbolBlocked_eq_expired now doc sym u hg hu]
        show mapGet (mapDelete doc.blockedSymbols sym) S = some m
        rw [mapGet_mapDelete_ne doc.blockedSymbols sym S (fun hc => hs hc.symm)]
        exact hb

theorem checkPosition_preserves_block (rp : RiskParams) (now midnight : Nat)
    (doc : AccountDoc) (p : Position) (S : String) (hnm : now < midnight)
    (hInv : ∃ m, mapGet doc.blockedSymbols S = some m ∧ now < m) :
    ∃ m2, mapGet (checkPosition rp now midnight doc p).2.blockedSymbols S =
      some m2 ∧ now < m2 := by
  obtain ⟨m, hb, hnow⟩ := hInv
  by_cases hlev : jsNum p.leverage 0 > rp.maxLeverage
  · rw [checkPosition_leverage_eq rp now midnight doc p hlev]
    exact ⟨m, hb, hnow⟩
  · by_cases hd : tradePnLPercent p ≤ -|rp.dailyDrawdownLimit|
    · rw [checkPosition_daily_eq rp now midnight doc p hlev hd]
      by_cases hs : p.symbol = S
      · subst hs
        exact ⟨midnight, mapGet_mapSet_self doc.blockedSymbols p.symbol midnight, hnm⟩
      · refine ⟨m, ?_, hnow⟩
        rw [mapGet_mapSet_ne doc.blockedSymbols p.symbol S midnight
          (fun hc => hs hc.symm)]
        exact hb
    · cases hbk : (isSymbolBlocked now doc p.symbol).1 with
      | true =>
        rw [checkPosition_symBlocked_eq rp now midnight doc p hlev hd hbk]
        exact ⟨m, isSymbolBlocked_snd_get now doc p.symbol S m hb hnow, hnow⟩
      | false =>
        rw [checkPosition_notBlocked_eq rp now midnight doc p hlev hd hbk]
        exact ⟨m, isSymbolBlocked_snd_get now doc p.symbol S m hb hnow, hnow⟩

theorem checkPositions_mem_symBlocked (rp : RiskParams) (now midnight : Nat)
    (ps : List Position) (doc : AccountDoc) (S : String) (pj : Position)
    (hnm : now < midnight) (hpjS : pj.symbol = S)
    (hlev : ¬ jsNum pj.leverage 0 > rp.maxLeverage)
    (hdaily : ¬ tradePnLPercent pj ≤ -|rp.dailyDrawdownLimit|)
    (hInv : ∃ m, mapGet doc.blockedSymbols S = some m ∧ now < m)
    (hmem : pj ∈ ps) :
    Action.closeOne S pj.side Reason.SYMBOL_BLOCKED ∈
      (checkPositions rp now midnight doc ps).1 := by
  revert hInv hmem
  induction ps generalizing doc with
  | nil =>
    intro _ hmem
    cases hmem
  | cons p rest ih =>
    intro hInv hmem
    rcases List.mem_cons.mp hmem with heq | hmem2
    · subst heq
      obtain ⟨m, hb, hnow⟩ := hInv
      have hbg : mapGet doc.blockedSymbols pj.symbol = some m := by
        rw [hpjS]
        exact hb
      have hbk : (isSymbolBlocked now doc pj.symbol).1 = true := by
        rw [isSymbolBlocked_eq_blocked now doc pj.symbol m hbg hnow]
      simp only [checkPositions]
      rw [checkPosition_symBlocked_eq rp now midnight doc pj hlev hdaily hbk]
      rw [hpjS]
      exact List.mem_append_left _ (by simp)
    · simp only [checkPositions]
      have hInv2 := checkPosition_preserves_block rp now midnight doc p S hnm hInv
      exact List.mem_append_right _
        (ih (checkPosition rp now midnight doc p).2 hInv2 hmem2)

/-- C10 (implicit): once a position trips the daily per-trade limit on
symbol S inside a cycle, the symbol block takes effect immediately
within that same cycle: every later position of the original list on S
that passes the leverage check and does not itself trip the daily limit
is closed with reason `SYMBOL_BLOCKED`. -/
theorem claim10_intra_cycle_symbol_block (now midnight : Nat)
    (currentBalance initialBalance : ℚ) (doc : AccountDoc)
    (pre mid post : List Position) (pi pj : Position)
    (hgate : doc.blockedUntil = none)
    (hdd : ¬ (currentBalance - initialBalance) / initialBalance * 100 ≤
      -|doc.riskParams.maxDrawdownLimit|)
    (hnm : now < midnight) (hS : pj.symbol = pi.symbol)
    (hpilev : ¬ jsNum pi.leverage 0 > doc.riskParams.maxLeverage)
    (hpidaily : tradePnLPercent pi ≤ -|doc.riskParams.dailyDrawdownLimit|)
    (hpjlev : ¬ jsNum pj.leverage 0 > doc.riskParams.maxLeverage)
    (hpjdaily : ¬ tradePnLPercent pj ≤ -|doc.riskParams.dailyDrawdownLimit|) :
    Action.closeOne pi.symbol pj.side Reason.SYMBOL_BLOCKED ∈
      (monitorAccount now midnight currentBalance initialBalance
        (pre ++ pi :: (mid ++ pj :: post)) doc).actions := by
  rw [monitorAccount_run_eq now midnight currentBalance initialBalance
    (pre ++ pi :: (mid ++ pj :: post)) doc hgate hdd]
  refine List.mem_append_left _ (List.mem_append_right _ ?_)
  rw [checkPositions_append doc.riskParams now midnight doc pre
    (pi :: (mid ++ pj :: post))]
  refine List.mem_append_right _ ?_
  simp only [checkPositions]
  rw [checkPosition_daily_eq doc.riskParams now midnight
    (checkPositions doc.riskParams now midnight doc pre).2 pi hpilev hpidaily]
  refine List.mem_append_right _ ?_
  refine checkPositions_mem_symBlocked doc.riskParams now midnight
    (mid ++ pj :: post) _ pi.symbol pj hnm hS hpjlev hpjdaily
    ⟨midnight, ?_, hnm⟩ (List.mem_append_right mid (List.mem_cons_self pj post))
  exact mapGet_mapSet_self _ pi.symbol midnight

/-- Witness for C10: in one cycle, `posLong94` (P&L -6%) trips the daily
limit on BTC/USDT, and the healthy later position `posSameSymbolOk` on
the same symbol is closed with reason `SYMBOL_BLOCKED` in the same
cycle. -/
theorem claim10_witness :
    docW.blockedUntil = none ∧
    (¬ ((100 : ℚ) - 100) / 100 * 100 ≤ -|docW.riskParams.maxDrawdownLimit|) ∧
    10 < 100 ∧
    posSameSymbolOk.symbol = posLong94.symbol ∧
    (¬ jsNum posLong94.leverage 0 > docW.riskParams.maxLeverage) ∧
    tradePnLPercent posLong94 ≤ -|docW.riskParams.dailyDrawdownLimit| ∧
    (¬ jsNum posSameSymbolOk.leverage 0 > docW.riskParams.maxLeverage) ∧
    (¬ tradePnLPercent posSameSymbolOk ≤ -|docW.riskParams.dailyDrawdownLimit|) ∧
    Action.closeOne posLong94.symbol posSameSymbolOk.side Reason.SYMBOL_BLOCKED ∈
      (monitorAccount 10 100 100 100
        ([] ++ posLong94 :: ([] ++ posSameSymbolOk :: [])) docW).actions := by
  refine ⟨rfl, by norm_num [docW, rpW], by decide, rfl,
    by norm_num [posLong94, docW, rpW, jsNum],
    by norm_num [tradePnLPercent, posLong94, docW, rpW, jsNum],
    by norm_num [posSameSymbolOk, docW, rpW, jsNum],
    by norm_num [tradePnLPercent, posSameSymbolOk, docW, rpW, jsNum], ?_⟩
  exact claim10_intra_cycle_symbol_block 10 100 100 100 docW [] [] []
    posLong94 posSameSymbolOk rfl (by norm_num [docW, rpW]) (by decide) rfl
    (by norm_num [posLong94, docW, rpW, jsNum])
    (by norm_num [tradePnLPercent, posLong94, docW, rpW, jsNum])
    (by norm_num [posSameSymbolOk, docW, rpW, jsNum])
    (by norm_num [tradePnLPercent, posSameSymbolOk, docW, rpW, jsNum])

end Bot
